import Mathlib

/-!
Verification of the skm-pss-adapters core: identifier assignment
(`IDTracker`), reaction-edge classification (`Reaction.add_edges`),
the connectivity graph (`model_fixes/graph.py`) and the repair engine
(`model_fixes/model_fixes.py`).  Python classes are embedded as Lean
structures, Python dicts as insertion-ordered association lists, and
impure loops as explicit folds.  Configuration lookup tables
(`pss_export_config.compartment_to_short`, `node_form_to_short`) come
from an external YAML file and are modelled as total functions on the
configured domain (a missing key is a hard `KeyError` in the source and
is outside the behaviour verified here).
-/

namespace SkmPss

/-- Configuration tables from `pss_export_config` used by identifier
synthesis (`config.py` loads them from YAML; external collaborator). -/
structure Config where
  compartment_to_short : String → String
  node_form_to_short : String → String

/-- `Species` (entity_classes.py): identity key (name, form, compartment).
The `sbo_term` attribute is config-derived metadata never read by the
operations verified here and is omitted. -/
structure Species where
  name : String
  form : String
  compartment : String
deriving DecidableEq

/-- The characters of the substring `"putative:"` removed by
`Species.__init__` via `compartment.replace("putative:", "")`. -/
def putativePat : List Char := "putative:".data

/-- Left-to-right removal of every occurrence of `"putative:"`, continuing
after each removed occurrence, as Python `str.replace(pat, "")` does.
Fuel-structural so concrete instances evaluate; each step consumes at
least one character, so fuel equal to the length never runs out. -/
def stripPutativeAux : Nat → List Char → List Char
  | 0, l => l
  | _ + 1, [] => []
  | fuel + 1, c :: rest =>
    if putativePat.isPrefixOf (c :: rest) then
      stripPutativeAux fuel (rest.drop (putativePat.length - 1))
    else
      c :: stripPutativeAux fuel rest

/-- `compartment.replace("putative:", "")` from `Species.__init__`. -/
def stripPutative (s : String) : String :=
  ⟨stripPutativeAux s.data.length s.data⟩

/-- The compartment normalization in `Species.__init__`
(entity_classes.py lines 161-167): `None`/`"unknown"` become
`"cytoplasm"` first, then `"putative:"` is removed. -/
def normalizeCompartment (compartment : Option String) : String :=
  let c :=
    match compartment with
    | none => "cytoplasm"
    | some c => if c = "unknown" then "cytoplasm" else c
  stripPutative c

/-- `Species.__init__`: the constructor taking a possibly-absent raw
compartment. -/
def mkSpecies (name form : String) (compartment : Option String) : Species :=
  ⟨name, form, normalizeCompartment compartment⟩

/-- `IDTracker.get_display_label` (entity_classes.py lines 373-381):
`re.match(r"(.*)\[(.*)\]$", name)` with both groups greedy strips one
trailing bracket group; the greedy first group means the *last* `[`
before the final `]` is the split point. -/
def get_display_label (name : String) : String :=
  let cs := name.data
  if cs.getLast? = some ']' then
    match (cs.dropLast.reverse.findIdx? (fun c => c == '[')) with
    | some k => ⟨cs.take (cs.dropLast.length - 1 - k)⟩
    | none => name
  else name

/-- `IDTracker.remove_nonalphanum`: `re.sub('[^0-9a-zA-Z_]+', '', name)`
deletes every character that is not ASCII alphanumeric or underscore
(underscores are kept by the character class). -/
def remove_nonalphanum (name : String) : String :=
  ⟨name.data.filter (fun c => c.isAlphanum || c == '_')⟩

/-- The collision-resolution loop of `get_species_id`
(`while id_ in self.species_ids.values(): id_ += '_1'`), fuel-structural.
Each `"_1"` makes the candidate strictly longer, so fuel exceeding the
number of at-least-as-long recorded values suffices (`freshIdAux_not_mem`). -/
def freshIdAux : Nat → List String → String → String
  | 0, _, id_ => id_
  | fuel + 1, vals, id_ =>
    if id_ ∈ vals then freshIdAux fuel vals (id_ ++ "_1") else id_

/-- The `while` loop of `get_species_id` with its sufficient fuel. -/
def freshId (vals : List String) (id_ : String) : String :=
  freshIdAux (vals.countP (fun v => id_.length ≤ v.length) + 1) vals id_

/-- `IDTracker.species_ids`: a Python dict, i.e. an insertion-ordered
association list from (name, form, compartment) to the assigned ID. -/
abbrev SpKey := String × String × String

/-- Dict lookup `self.species_ids.get(key)`. -/
def lookupK : List (SpKey × String) → SpKey → Option String
  | [], _ => none
  | (k', v) :: rest, k => if k' = k then some v else lookupK rest k

/-- Dict assignment `self.species_ids[key] = id_`: update in place if the
key exists, else append (Python dicts keep insertion order). -/
def insertK : List (SpKey × String) → SpKey → String → List (SpKey × String)
  | [], k, v => [(k, v)]
  | (k', v') :: rest, k, v =>
    if k' = k then (k, v) :: rest else (k', v') :: insertK rest k v

/-- `self.species_ids.values()`. -/
def valsOf (m : List (SpKey × String)) : List String := m.map (·.2)

/-- `IDTracker` (entity_classes.py): only the species namespace is
modelled; the species-type / compartment / reaction namespaces are
independent dicts never read by the claims verified here. -/
structure IDTracker where
  location : Bool
  species_ids : List (SpKey × String)
  species_counter : Nat
deriving DecidableEq

/-- `IDTracker.__init__` (with the chosen `location` setting). -/
def initIDTracker (location : Bool) : IDTracker := ⟨location, [], 0⟩

/-- The effective compartment used for the tracker key: `'none'` when the
tracker ignores location (entity_classes.py lines 277-281, 352-356). -/
def trackerComp (t : IDTracker) (sp : Species) : String :=
  if t.location then sp.compartment else "none"

/-- The candidate ID synthesized by `get_species_id` (lines 286-288):
`s_` + cleaned display name + `_` + compartment short code + `_` + form
short code. -/
def speciesCandidate (cfg : Config) (comp : String) (sp : Species) : String :=
  "s_" ++ remove_nonalphanum (get_display_label sp.name) ++
  "_" ++ cfg.compartment_to_short comp ++
  "_" ++ cfg.node_form_to_short sp.form

/-- `IDTracker.get_species_id` (lines 269-307): return the recorded ID
with status 1, or a fresh (collision-suffixed) candidate with status 0. -/
def get_species_id (cfg : Config) (t : IDTracker) (sp : Species) : String × Nat :=
  let comp := trackerComp t sp
  match lookupK t.species_ids (sp.name, sp.form, comp) with
  | some id_ => (id_, 1)
  | none => (freshId (valsOf t.species_ids) (speciesCandidate cfg comp sp), 0)

/-- `IDTracker.set_species_id` (lines 350-359). -/
def set_species_id (t : IDTracker) (sp : Species) (id_ : String) : IDTracker :=
  { t with
    species_ids := insertK t.species_ids (sp.name, sp.form, trackerComp t sp) id_
    species_counter := t.species_counter + 1 }

/-- The caller protocol used throughout the repository (graph.py lines
29-37, sbml_api.py lines 95-121, tabularqual_api.py lines 96-115):
`get_species_id`, then `set_species_id` exactly when the status is 0. -/
def assignSpeciesId (cfg : Config) (t : IDTracker) (sp : Species) :
    IDTracker × String × Nat :=
  match get_species_id cfg t sp with
  | (id_, status) => (if status = 0 then set_species_id t sp id_ else t, id_, status)

/-- The species represented by a raw identity-key triple. -/
def keySpecies (k : SpKey) : Species := ⟨k.1, k.2.1, k.2.2⟩

/-- A sequence of `get_species_id`-then-`set_species_id` submissions,
returning the final tracker and the assigned IDs in order. -/
def runAssign (cfg : Config) : IDTracker → List SpKey → IDTracker × List String
  | t, [] => (t, [])
  | t, k :: ks =>
    let id_ := (get_species_id cfg t (keySpecies k)).1
    let t' := set_species_id t (keySpecies k) id_
    let r := runAssign cfg t' ks
    (r.1, id_ :: r.2)

/-! ### Helper lemmas -/

theorem countP_lt_countP {l : List String} {p q : String → Bool} (a : String)
    (ha : a ∈ l) (hpa : p a = true) (hqa : q a = false)
    (himp : ∀ x, q x = true → p x = true) :
    l.countP q < l.countP p := by
  induction l with
  | nil => cases ha
  | cons b t ih =>
    rcases List.mem_cons.mp ha with hb | ht
    · subst hb
      have hmono : t.countP q ≤ t.countP p := by
        apply List.countP_mono_left
        intro x _ hx
        exact himp x hx
      simp [List.countP_cons, hpa, hqa]
      omega
    · have := ih ht
      by_cases hqb : q b = true
      · have hpb := himp b hqb
        simp [List.countP_cons, hqb, hpb]
        omega
      · simp at hqb
        simp [List.countP_cons, hqb]
        by_cases hpb : p b = true <;> simp [hpb] <;> omega

theorem freshIdAux_not_mem (fuel : Nat) (vals : List String) :
    ∀ id_ : String, vals.countP (fun v => id_.length ≤ v.length) < fuel →
    freshIdAux fuel vals id_ ∉ vals := by
  induction fuel with
  | zero => intro id_ h; omega
  | succ n ih =>
    intro id_ h
    rw [freshIdAux]
    by_cases hmem : id_ ∈ vals
    · simp only [hmem, if_true]
      apply ih
      have h1 : ("_1" : String).length = 2 := rfl
      have hlt : vals.countP (fun v => (id_ ++ "_1").length ≤ v.length) <
          vals.countP (fun v => id_.length ≤ v.length) := by
        apply countP_lt_countP id_ hmem
        · simp
        · simp only [decide_eq_false_iff_not, not_le, String.length_append, h1]
          omega
        · intro x hx
          simp only [decide_eq_true_eq, String.length_append, h1] at hx ⊢
          omega
      omega
    · simp [hmem]

theorem freshId_not_mem (vals : List String) (id_ : String) :
    freshId vals id_ ∉ vals :=
  freshIdAux_not_mem _ _ _ (Nat.lt_succ_self _)

theorem lookupK_insertK_self (m : List (SpKey × String)) (k : SpKey) (v : String) :
    lookupK (insertK m k v) k = some v := by
  induction m with
  | nil => simp [insertK, lookupK]
  | cons e rest ih =>
    obtain ⟨k', v'⟩ := e
    by_cases h : k' = k
    · simp [insertK, lookupK, h]
    · simp [insertK, lookupK, h, ih]

theorem insertK_eq_append (m : List (SpKey × String)) (k : SpKey) (v : String)
    (h : lookupK m k = none) : insertK m k v = m ++ [(k, v)] := by
  induction m with
  | nil => simp [insertK]
  | cons e rest ih =>
    obtain ⟨k', v'⟩ := e
    by_cases hk : k' = k
    · simp [lookupK, hk] at h
    · simp only [lookupK, hk, if_false] at h
      simp [insertK, hk, ih h]

theorem lookupK_append_none (m : List (SpKey × String)) (k k' : SpKey) (v : String)
    (h : lookupK m k' = none) (hne : k' ≠ k) :
    lookupK (m ++ [(k, v)]) k' = none := by
  induction m with
  | nil =>
    simp only [List.nil_append, lookupK]
    rw [if_neg (fun hh => hne hh.symm)]
  | cons e rest ih =>
    obtain ⟨k0, v0⟩ := e
    by_cases hk : k0 = k'
    · simp [lookupK, hk] at h
    · simp only [lookupK, hk, if_false] at h
      simp [lookupK, hk, ih h]

theorem valsOf_append (m m' : List (SpKey × String)) :
    valsOf (m ++ m') = valsOf m ++ valsOf m' := by
  simp [valsOf]

theorem lookupK_zip_get (ks : List SpKey) (ids : List String)
    (hlen : ids.length = ks.length) (hnd : ks.Nodup) :
    ∀ i (hi : i < ks.length) (hi2 : i < ids.length),
      lookupK (ks.zip ids) (ks.get ⟨i, hi⟩) = some (ids.get ⟨i, hi2⟩) := by
  induction ks generalizing ids with
  | nil => intro i hi; simp at hi
  | cons k ks' ih =>
    cases ids with
    | nil => simp at hlen
    | cons id0 ids' =>
      intro i hi hi2
      cases i with
      | zero => simp [lookupK]
      | succ j =>
        have hk : k ∉ ks' := (List.nodup_cons.mp hnd).1
        have hne : k ≠ ks'.get ⟨j, by simpa using hi⟩ := by
          intro heq
          apply hk
          rw [heq]
          exact List.get_mem ks' j _
        simp only [List.zip_cons_cons, lookupK, List.get]
        split_ifs with hsplit
        · exact absurd hsplit hne
        · exact ih ids' (by simpa using hlen) (List.nodup_cons.mp hnd).2 j
            (by simpa using hi) (by simpa using hi2)

theorem keySpecies_trackerKey (t : IDTracker) (hloc : t.location = true) (k : SpKey) :
    ((keySpecies k).name, (keySpecies k).form, trackerComp t (keySpecies k)) = k := by
  obtain ⟨a, b, c⟩ := k
  simp [keySpecies, trackerComp, hloc]

theorem runAssign_spec (cfg : Config) (ks : List SpKey) :
    ∀ t : IDTracker, t.location = true → ks.Nodup →
    (∀ k ∈ ks, lookupK t.species_ids k = none) →
    (runAssign cfg t ks).1.location = true ∧
    (runAssign cfg t ks).1.species_ids =
      t.species_ids ++ ks.zip (runAssign cfg t ks).2 ∧
    (runAssign cfg t ks).2.length = ks.length ∧
    (runAssign cfg t ks).2.Nodup ∧
    (∀ id_ ∈ (runAssign cfg t ks).2, id_ ∉ valsOf t.species_ids) := by
  induction ks with
  | nil => intro t hloc _ _; simp [runAssign, hloc]
  | cons k ks' ih =>
    intro t hloc hnd hnone
    have hknone : lookupK t.species_ids k = none := hnone k (by simp)
    have hkey : ((keySpecies k).name, (keySpecies k).form,
        trackerComp t (keySpecies k)) = k := keySpecies_trackerKey t hloc k
    have hget : get_species_id cfg t (keySpecies k) =
        (freshId (valsOf t.species_ids)
          (speciesCandidate cfg (trackerComp t (keySpecies k)) (keySpecies k)), 0) := by
      rw [get_species_id]
      rw [hkey, hknone]
    set fid := freshId (valsOf t.species_ids)
      (speciesCandidate cfg (trackerComp t (keySpecies k)) (keySpecies k)) with hfid
    have hfresh : fid ∉ valsOf t.species_ids := freshId_not_mem _ _
    have hstep : runAssign cfg t (k :: ks') =
        ((runAssign cfg (set_species_id t (keySpecies k) fid) ks').1,
          fid :: (runAssign cfg (set_species_id t (keySpecies k) fid) ks').2) := by
      rw [runAssign, hget]
    set t' := set_species_id t (keySpecies k) fid with ht'
    have ht'ids : t'.species_ids = t.species_ids ++ [(k, fid)] := by
      rw [ht', set_species_id]
      simp only [hkey]
      exact insertK_eq_append _ _ _ hknone
    have ht'loc : t'.location = true := by rw [ht']; simpa [set_species_id]
    have hnd' : ks'.Nodup := (List.nodup_cons.mp hnd).2
    have hknotin : k ∉ ks' := (List.nodup_cons.mp hnd).1
    have hnone' : ∀ k' ∈ ks', lookupK t'.species_ids k' = none := by
      intro k' hk'
      rw [ht'ids]
      exact lookupK_append_none _ _ _ _ (hnone k' (by simp [hk']))
        (fun hh => hknotin (hh ▸ hk'))
    obtain ⟨hl, hsp, hlen, hndids, hnotin⟩ := ih t' ht'loc hnd' hnone'
    rw [hstep]
    refine ⟨hl, ?_, by simpa using hlen, ?_, ?_⟩
    · simp only [hsp, ht'ids, List.zip_cons_cons, List.append_assoc]
      rfl
    · rw [List.nodup_cons]
      constructor
      · intro hmem
        have := hnotin fid hmem
        rw [ht'ids, valsOf_append] at this
        simp [valsOf] at this
      · exact hndids
    · intro id_ hid
      rcases List.mem_cons.mp hid with h1 | h2
      · exact h1 ▸ hfresh
      · intro hval
        have := hnotin id_ h2
        rw [ht'ids, valsOf_append] at this
        exact this (List.mem_append_left _ hval)

/-! ### Claims on the identifier registry -/

/-- C1: for every sequence of pairwise-distinct species identity keys
(name, form, compartment) submitted to a single location-keyed
`IDTracker` via `get_species_id` followed by `set_species_id`, the
assigned IDs are pairwise distinct, and every later `get_species_id`
call with a previously recorded key returns the same ID with the
was-existing status 1. -/
theorem species_ids_unique_and_idempotent (cfg : Config) (ks : List SpKey)
    (hnd : ks.Nodup) :
    (runAssign cfg (initIDTracker true) ks).2.Nodup ∧
    (runAssign cfg (initIDTracker true) ks).2.length = ks.length ∧
    (∀ i (hi : i < ks.length) (hi2 : i < (runAssign cfg (initIDTracker true) ks).2.length),
      get_species_id cfg (runAssign cfg (initIDTracker true) ks).1
        (keySpecies (ks.get ⟨i, hi⟩)) =
      ((runAssign cfg (initIDTracker true) ks).2.get ⟨i, hi2⟩, 1)) := by
  obtain ⟨hloc, hsp, hlen, hndids, _⟩ :=
    runAssign_spec cfg ks (initIDTracker true) rfl hnd
      (by intro k _; simp [initIDTracker, lookupK])
  refine ⟨hndids, hlen, ?_⟩
  intro i hi hi2
  have hkey : ((keySpecies (ks.get ⟨i, hi⟩)).name, (keySpecies (ks.get ⟨i, hi⟩)).form,
      trackerComp (runAssign cfg (initIDTracker true) ks).1
        (keySpecies (ks.get ⟨i, hi⟩))) = ks.get ⟨i, hi⟩ :=
    keySpecies_trackerKey _ hloc _
  rw [get_species_id]
  rw [hkey]
  have hids : (runAssign cfg (initIDTracker true) ks).1.species_ids =
      ks.zip (runAssign cfg (initIDTracker true) ks).2 := by
    simpa [initIDTracker] using hsp
  rw [hids, lookupK_zip_get ks _ hlen hnd i hi hi2]

/-- A tiny concrete configuration table for witnesses (the real table is
external YAML). -/
def cfg0 : Config :=
  ⟨fun c => if c = "cytoplasm" then "cy" else if c = "nucleus" then "nu" else "xx",
   fun f => if f = "protein" then "p" else if f = "gene" then "g" else "q"⟩

/-- Concrete distinct identity keys for the C1 witness. -/
def ks0 : List SpKey :=
  [("PR1", "protein", "cytoplasm"), ("PR1", "protein", "nucleus"),
   ("WRKY33", "gene", "nucleus")]

/-- Witness for C1 at three concrete distinct keys. -/
theorem species_ids_unique_and_idempotent_witness :
    (runAssign cfg0 (initIDTracker true) ks0).2.Nodup ∧
    (runAssign cfg0 (initIDTracker true) ks0).2.length = ks0.length := by
  have h := species_ids_unique_and_idempotent cfg0 ks0 (by decide)
  exact ⟨h.1, h.2.1⟩

/-- C8: assigning an ID to a not-yet-present identity key records the
key-to-ID mapping before returning, so an immediately following
`get_species_id` with the same key returns the same ID with status 1
(this also holds when the key was already present). -/
theorem assign_records_mapping (cfg : Config) (t : IDTracker) (sp : Species) :
    get_species_id cfg (assignSpeciesId cfg t sp).1 sp =
      ((assignSpeciesId cfg t sp).2.1, 1) := by
  rcases hlk : lookupK t.species_ids (sp.name, sp.form, trackerComp t sp) with _ | v
  · have hget : get_species_id cfg t sp =
        (freshId (valsOf t.species_ids) (speciesCandidate cfg (trackerComp t sp) sp), 0) := by
      rw [get_species_id, hlk]
    have hassign : assignSpeciesId cfg t sp =
        (set_species_id t sp
          (freshId (valsOf t.species_ids) (speciesCandidate cfg (trackerComp t sp) sp)),
         freshId (valsOf t.species_ids) (speciesCandidate cfg (trackerComp t sp) sp), 0) := by
      rw [assignSpeciesId, hget]
      simp
    rw [hassign]
    have hcomp : trackerComp (set_species_id t sp
        (freshId (valsOf t.species_ids) (speciesCandidate cfg (trackerComp t sp) sp))) sp =
        trackerComp t sp := rfl
    rw [get_species_id, hcomp]
    simp [set_species_id, lookupK_insertK_self]
  · have hget : get_species_id cfg t sp = (v, 1) := by
      rw [get_species_id, hlk]
    have hassign : assignSpeciesId cfg t sp = (t, v, 1) := by
      rw [assignSpeciesId, hget]
      simp
    rw [hassign]
    rw [get_species_id, hlk]

/-- C9 counterexample: the synthesized ID for display name
`"FOO[complex]"` keeps the upper-case letters (`get_species_id` never
lower-cases), and `remove_nonalphanum` keeps underscores, so the name
portion is not restricted to lower-case letters and digits. -/
theorem candidate_not_lowercased :
    get_species_id cfg0 (initIDTracker true) ⟨"FOO[complex]", "protein", "cytoplasm"⟩ =
      ("s_FOO_cy_p", 0) ∧
    ("FOO".data.all (fun c => c.isLower || c.isDigit)) = false ∧
    remove_nonalphanum "A_B" = "A_B" := by
  refine ⟨by decide, by decide, by decide⟩

/-- C9 (amended): candidate synthesis strips one trailing bracket group
from the display name and removes every character that is neither ASCII
alphanumeric nor underscore, without changing case; hence the name
portion of a synthesized ID consists of letters (either case), digits
and underscores only. -/
theorem candidate_name_portion_alnum :
    (∀ name : String, ((remove_nonalphanum (get_display_label name)).data.all
      (fun c => c.isAlphanum || c == '_')) = true) ∧
    get_display_label "FOO[complex]" = "FOO" ∧
    remove_nonalphanum "a-b c" = "abc" := by
  refine ⟨?_, by decide, by decide⟩
  intro name
  rw [remove_nonalphanum]
  rw [List.all_eq_true]
  intro c hc
  exact (List.mem_filter.mp hc).2

/-- C10: `Species.__init__` maps `None`/`"unknown"` to `"cytoplasm"`
*before* removing `"putative:"`, and the removal applies anywhere in the
string; consequently the input compartment `"putative:unknown"` yields
`"unknown"`, not `"cytoplasm"`. -/
theorem species_compartment_normalization :
    (∀ name form : String,
      (mkSpecies name form (some "putative:unknown")).compartment = "unknown") ∧
    (∀ name form : String,
      (mkSpecies name form none).compartment = "cytoplasm") ∧
    (∀ name form : String,
      (mkSpecies name form (some "unknown")).compartment = "cytoplasm") ∧
    (∀ name form : String,
      (mkSpecies name form (some "aputative:bc")).compartment = "abc") := by
  refine ⟨fun _ _ => ?_, fun _ _ => ?_, fun _ _ => ?_, fun _ _ => ?_⟩
  · show normalizeCompartment (some "putative:unknown") = "unknown"
    decide
  · show normalizeCompartment none = "cytoplasm"
    decide
  · show normalizeCompartment (some "unknown") = "cytoplasm"
    decide
  · show normalizeCompartment (some "aputative:bc") = "abc"
    decide

/-! ### Reaction model and edge classification (entity_classes.py) -/

/-- `reaction_classes.TRANSCRIPTIONAL_TRANSLATIONAL`
(reaction_definitions.py lines 28-31). -/
def TRANSCRIPTIONAL_TRANSLATIONAL : List String :=
  ["transcriptional/translational activation",
   "transcriptional/translational repression"]

/-- `reaction_types.TRANSLOCATION`. -/
def TRANSLOCATION : String := "translocation"

/-- `reaction_types.BINDING_OLIGOMERISATION`. -/
def BINDING_OLIGOMERISATION : String := "binding/oligomerisation"

/-- `Reaction` (entity_classes.py lines 14-41).  The `sbo_term`,
`reaction_mechanism`, `evidence_sentence`, `reaction_effect` and
`external_links` attributes are carried verbatim from the constructor
arguments and never read by the operations verified here; they are
omitted. -/
structure Reaction where
  id : String
  reaction_type : String
  export_notes : String
  substrates : List Species
  products : List Species
  modifiers : List Species
  include_conditions : Bool
  include_genes : Bool
deriving DecidableEq

/-- `Reaction.__init__` with empty participant lists. -/
def mkReaction (reaction_id reaction_type export_notes : String)
    (include_conditions include_genes : Bool) : Reaction :=
  ⟨reaction_id, reaction_type, export_notes, [], [], [], include_conditions, include_genes⟩

/-- `Reaction.add_substrate`. -/
def add_substrate (r : Reaction) (s : Species) : Reaction :=
  { r with substrates := r.substrates ++ [s] }

/-- `Reaction.add_product`. -/
def add_product (r : Reaction) (s : Species) : Reaction :=
  { r with products := r.products ++ [s] }

/-- `Reaction.add_modifier`. -/
def add_modifier (r : Reaction) (s : Species) : Reaction :=
  { r with modifiers := r.modifiers ++ [s] }

/-- One raw edge from the graph database (a `path` with one
relationship): its type tag, endpoint node names, and the
source/target location and form attributes carried on the edge.
Locations may be absent (`None`), which `Species.__init__` normalizes. -/
structure RawEdge where
  edge_type : String
  start_name : String
  end_name : String
  source_location : Option String
  target_location : Option String
  source_form : String
  target_form : String
deriving DecidableEq

/-- The body of the `for path in edge_list` loop in `Reaction.add_edges`
(entity_classes.py lines 43-85) for a single edge: the updated reaction
and the classification warning printed for an unrecognized edge type. -/
def addEdgeStep (r : Reaction) (e : RawEdge) : Reaction × Option String :=
  if e.edge_type = "SUBSTRATE" ∨ e.edge_type = "TRANSLOCATE_FROM" then
    if r.reaction_type ∈ TRANSCRIPTIONAL_TRANSLATIONAL ∧ r.include_genes = false then
      (r, none)
    else
      (add_substrate r (mkSpecies e.start_name e.source_form e.source_location), none)
  else if e.edge_type = "PRODUCT" ∨ e.edge_type = "TRANSLOCATE_TO" then
    (add_product r (mkSpecies e.end_name e.target_form e.target_location), none)
  else if e.edge_type = "INHIBITS" ∨ e.edge_type = "ACTIVATES" then
    if e.source_form = "condition" ∧ r.include_conditions = false then
      (r, none)
    else
      (add_modifier r (mkSpecies e.start_name e.source_form e.source_location), none)
  else
    (r, some ("Reaction: " ++ e.edge_type ++ ", " ++ r.id))

/-- `Reaction.add_edges`: fold the loop body over the edge list,
collecting the classification warnings. -/
def add_edges : Reaction → List RawEdge → Reaction × List String
  | r, [] => (r, [])
  | r, e :: rest =>
    let s := addEdgeStep r e
    let t := add_edges s.1 rest
    (t.1, s.2.toList ++ t.2)

/-- C7: `add_edges` classifies a SUBSTRATE/TRANSLOCATE_FROM edge as a
substrate unless the reaction is transcriptional/translational with
genes excluded (then skipped); an INHIBITS/ACTIVATES edge as a modifier
unless the source form is "condition" with conditions excluded (then
skipped); and any unrecognized edge type produces a warning and is
ignored without aborting the processing of the remaining edges. -/
theorem add_edges_classification (r : Reaction) (e : RawEdge) (rest : List RawEdge) :
    ((e.edge_type = "SUBSTRATE" ∨ e.edge_type = "TRANSLOCATE_FROM") →
      (r.reaction_type ∈ TRANSCRIPTIONAL_TRANSLATIONAL → r.include_genes = false →
        addEdgeStep r e = (r, none)) ∧
      (¬ (r.reaction_type ∈ TRANSCRIPTIONAL_TRANSLATIONAL ∧ r.include_genes = false) →
        addEdgeStep r e =
          (add_substrate r (mkSpecies e.start_name e.source_form e.source_location), none))) ∧
    ((e.edge_type = "INHIBITS" ∨ e.edge_type = "ACTIVATES") →
      (e.source_form = "condition" → r.include_conditions = false →
        addEdgeStep r e = (r, none)) ∧
      (¬ (e.source_form = "condition" ∧ r.include_conditions = false) →
        addEdgeStep r e =
          (add_modifier r (mkSpecies e.start_name e.source_form e.source_location), none))) ∧
    (e.edge_type ∉ ["SUBSTRATE", "TRANSLOCATE_FROM", "PRODUCT", "TRANSLOCATE_TO",
        "INHIBITS", "ACTIVATES"] →
      addEdgeStep r e = (r, some ("Reaction: " ++ e.edge_type ++ ", " ++ r.id)) ∧
      add_edges r (e :: rest) =
        ((add_edges r rest).1,
          ("Reaction: " ++ e.edge_type ++ ", " ++ r.id) :: (add_edges r rest).2)) := by
  refine ⟨?_, ?_, ?_⟩
  · intro hty
    constructor
    · intro htt hg
      rw [addEdgeStep, if_pos hty, if_pos ⟨htt, hg⟩]
    · intro hns
      rw [addEdgeStep, if_pos hty, if_neg hns]
  · intro hty
    have hne1 : ¬ (e.edge_type = "SUBSTRATE" ∨ e.edge_type = "TRANSLOCATE_FROM") := by
      rcases hty with h | h <;> rw [h] <;> decide
    have hne2 : ¬ (e.edge_type = "PRODUCT" ∨ e.edge_type = "TRANSLOCATE_TO") := by
      rcases hty with h | h <;> rw [h] <;> decide
    constructor
    · intro hc hic
      rw [addEdgeStep, if_neg hne1, if_neg hne2, if_pos hty, if_pos ⟨hc, hic⟩]
    · intro hns
      rw [addEdgeStep, if_neg hne1, if_neg hne2, if_pos hty, if_neg hns]
  · intro hun
    simp only [List.mem_cons, List.not_mem_nil, or_false, not_or] at hun
    obtain ⟨h1, h2, h3, h4, h5, h6⟩ := hun
    have hstep : addEdgeStep r e = (r, some ("Reaction: " ++ e.edge_type ++ ", " ++ r.id)) := by
      rw [addEdgeStep, if_neg (by tauto), if_neg (by tauto), if_neg (by tauto)]
    refine ⟨hstep, ?_⟩
    rw [add_edges, hstep]
    simp

/-- Concrete reaction and edges for the C7 witness. -/
def r0 : Reaction := mkReaction "rx_1" "catalysis" "" false false

/-- A substrate edge for the C7 witness. -/
def eSub : RawEdge :=
  ⟨"SUBSTRATE", "ABA", "X", some "cytoplasm", none, "metabolite", "protein"⟩

/-- A translation reaction for the C7 witness skip cases. -/
def rTT : Reaction :=
  mkReaction "rx_2" "transcriptional/translational activation" "" false false

/-- A condition-modifier edge for the C7 witness. -/
def eCond : RawEdge :=
  ⟨"ACTIVATES", "drought", "X", none, none, "condition", "protein"⟩

/-- An unrecognized edge for the C7 witness. -/
def eBad : RawEdge :=
  ⟨"BANANA", "A", "B", none, none, "protein", "protein"⟩

/-- Witness for C7: each clause exercised at a concrete edge. -/
theorem add_edges_classification_witness :
    addEdgeStep r0 eSub =
      (add_substrate r0 (mkSpecies "ABA" "metabolite" (some "cytoplasm")), none) ∧
    addEdgeStep rTT eSub = (rTT, none) ∧
    addEdgeStep rTT eCond = (rTT, none) ∧
    addEdgeStep r0 eBad = (r0, some "Reaction: BANANA, rx_1") ∧
    add_edges r0 [eBad, eSub] =
      ((add_edges r0 [eSub]).1, "Reaction: BANANA, rx_1" :: (add_edges r0 [eSub]).2) := by
  refine ⟨?_, ?_, ?_, ?_, ?_⟩
  · exact ((add_edges_classification r0 eSub []).1 (by decide)).2 (by decide)
  · exact ((add_edges_classification rTT eSub []).1 (by decide)).1 (by decide) (by decide)
  · exact ((add_edges_classification rTT eCond []).2.1 (by decide)).1 (by decide) (by decide)
  · exact ((add_edges_classification r0 eBad [eSub]).2.2 (by decide)).1
  · exact ((add_edges_classification r0 eBad [eSub]).2.2 (by decide)).2

/-! ### The connectivity graph (model_fixes/graph.py) -/

/-- A node of the `networkx.DiGraph` built by `Graph._create_digraph`.
Reaction nodes carry `type='reaction'`, `form='reaction'` and
`reaction_type`; species nodes carry `type='species'`, `name`, `form`,
`compartment`.  Attributes a node kind does not set (`""` here) are
never read by the modelled operations: every attribute read in
graph.py/model_fixes.py is on a species node filtered by `type` or by
membership in a species-node list, except `reaction_type`, read only on
reaction nodes.  The `label` attribute is only used for plotting and is
omitted. -/
structure GNode where
  id : String
  ntype : String
  name : String
  form : String
  compartment : String
  reaction_type : String
deriving DecidableEq

/-- A directed edge `(source, target)` tagged with its role
(`substrate`/`product`/`modifier`). -/
structure GEdge where
  src : String
  tgt : String
  etype : String
deriving DecidableEq

/-- The directed graph: node list and edge list in insertion order. -/
structure Digraph where
  nodes : List GNode
  edges : List GEdge
deriving DecidableEq

/-- `G.add_node`: networkx updates the attributes if the id exists,
otherwise appends the node. -/
def addNode (g : Digraph) (n : GNode) : Digraph :=
  if g.nodes.any (fun m => m.id == n.id) then
    { g with nodes := g.nodes.map (fun m => if m.id == n.id then n else m) }
  else
    { g with nodes := g.nodes ++ [n] }

/-- `G.add_edge`: networkx updates the attributes of an existing
(source, target) pair, otherwise appends the edge. -/
def addEdge (g : Digraph) (u v ty : String) : Digraph :=
  if g.edges.any (fun e => e.src == u && e.tgt == v) then
    { g with edges := g.edges.map (fun e => if e.src == u && e.tgt == v then ⟨u, v, ty⟩ else e) }
  else
    { g with edges := g.edges ++ [⟨u, v, ty⟩] }

/-- The reaction collection owner (`pss_adapter`): `reactions` is a dict
id → Reaction, `additional_reactions` collects the ids of synthesized
transport reactions. -/
structure PSSAdapter where
  reactions : List (String × Reaction)
  additional_reactions : List String
  include_genes : Bool
deriving DecidableEq

/-- `self.pss_adapter.reactions.get(reaction_id)`. -/
def lookupReaction : List (String × Reaction) → String → Option Reaction
  | [], _ => none
  | (k, r) :: rest, i => if k = i then some r else lookupReaction rest i

/-- The per-participant step of `Graph._create_digraph` (graph.py lines
28-62): look up / create the species ID, add its node when new, and add
the role edge (species→reaction for substrate/modifier,
reaction→species for product). -/
def addParticipant (cfg : Config) (st : IDTracker × Digraph) (sp : Species)
    (rid role : String) : IDTracker × Digraph :=
  let pr := get_species_id cfg st.1 sp
  let t := if pr.2 = 0 then set_species_id st.1 sp pr.1 else st.1
  let g := if pr.2 = 0 then
      addNode st.2 ⟨pr.1, "species", sp.name, sp.form, sp.compartment, ""⟩
    else st.2
  if role = "product" then (t, addEdge g rid pr.1 "product")
  else (t, addEdge g pr.1 rid role)

/-- The per-reaction step of `Graph._create_digraph`. -/
def addReactionToGraph (cfg : Config) (st : IDTracker × Digraph) (r : Reaction) :
    IDTracker × Digraph :=
  let st1 := (st.1, addNode st.2 ⟨r.id, "reaction", "", "reaction", "", r.reaction_type⟩)
  let st2 := r.substrates.foldl (fun s sp => addParticipant cfg s sp r.id "substrate") st1
  let st3 := r.products.foldl (fun s sp => addParticipant cfg s sp r.id "product") st2
  r.modifiers.foldl (fun s sp => addParticipant cfg s sp r.id "modifier") st3

/-- `Graph._create_digraph` (graph.py lines 19-64): a fresh location-aware
or location-blind `IDTracker` resolves species nodes while reactions are
folded into the graph. -/
def createDigraph (cfg : Config) (ad : PSSAdapter) (location : Bool) : Digraph :=
  ((ad.reactions.map (·.2)).foldl (addReactionToGraph cfg)
    (initIDTracker location, ⟨[], []⟩)).2

/-- `subgraph.nodes[i]` as a total attribute record (identity-attribute
defaults are never read, see `GNode`). -/
def findNode (g : Digraph) (i : String) : Option GNode :=
  g.nodes.find? (fun n => n.id == i)

/-- The `form` attribute of a node. -/
def nodeForm (g : Digraph) (i : String) : String :=
  ((findNode g i).map (·.form)).getD ""

/-- The `compartment` attribute of a node. -/
def nodeCompartment (g : Digraph) (i : String) : String :=
  ((findNode g i).map (·.compartment)).getD ""

/-- The `type` attribute of a node. -/
def nodeType (g : Digraph) (i : String) : String :=
  ((findNode g i).map (·.ntype)).getD ""

/-- The `reaction_type` attribute of a node. -/
def nodeRType (g : Digraph) (i : String) : String :=
  ((findNode g i).map (·.reaction_type)).getD ""

/-- `Graph.get_species_per_node` restricted to one name: the ids of the
species nodes carrying that biological name, in node order. -/
def speciesNodesFor (g : Digraph) (name : String) : List String :=
  (g.nodes.filter (fun n => n.ntype == "species" && n.name == name)).map (·.id)

/-- The distinct species names, in first-occurrence order (the keys of
`get_species_per_node`). -/
def speciesNamesDedup (g : Digraph) : List String :=
  ((g.nodes.filter (fun n => n.ntype == "species")).map (·.name)).dedup

/-- Undirected adjacency: `graph.to_undirected().neighbors`. -/
def undirectedAdj (g : Digraph) (u v : String) : Bool :=
  g.edges.any (fun e => (e.src == u && e.tgt == v) || (e.src == v && e.tgt == u))

/-- `Graph._neighbourhood` (graph.py lines 84-89): the set of undirected
neighbors of the given nodes, as a sublist of the graph's nodes. -/
def neighbourhood (g : Digraph) (ns : List String) : List String :=
  (g.nodes.map (·.id)).filter (fun v => ns.any (fun n => undirectedAdj g n v))

/-- `graph.subgraph(nodes)`: the induced subgraph. -/
def inducedSubgraph (g : Digraph) (ns : List String) : Digraph :=
  ⟨g.nodes.filter (fun n => ns.contains n.id),
   g.edges.filter (fun e => ns.contains e.src && ns.contains e.tgt)⟩

/-- Undirected breadth-first search used to decide weak connectivity
(`nx.is_weakly_connected`), fuel-structural with fuel = node count. -/
def bfsAux (g : Digraph) : Nat → List String → List String → List String
  | 0, _, visited => visited
  | fuel + 1, frontier, visited =>
    let next := (g.nodes.map (·.id)).filter
      (fun v => !visited.contains v && frontier.any (fun u => undirectedAdj g u v))
    if next.isEmpty then visited
    else bfsAux g fuel next (visited ++ next)

/-- All nodes reachable from `s` ignoring edge direction. -/
def reachableUndir (g : Digraph) (s : String) : List String :=
  bfsAux g g.nodes.length [s] [s]

/-- `nx.is_weakly_connected`: every node reachable from the first one
when edge direction is ignored (networkx raises on the empty graph,
which the modelled flow never passes: the species list always has at
least two nodes). -/
def isWeaklyConnected (g : Digraph) : Bool :=
  match g.nodes with
  | [] => true
  | n :: _ => (g.nodes.map (·.id)).all (fun v => (reachableUndir g n.id).contains v)

/-- `Graph.is_node_connected` (graph.py lines 74-82): induced subgraph of
the undirected 1-hop neighbourhood of the species nodes union the
species nodes, and its weak-connectivity verdict. -/
def is_node_connected (g : Digraph) (species : List String) : Bool × Digraph :=
  let reactions := neighbourhood g species
  let sub := inducedSubgraph g (reactions ++ species)
  (isWeaklyConnected sub, sub)

/-- `Graph.find_problematic_nodes` (graph.py lines 91-105): names with
more than one species node whose 1-hop subgraph is not weakly
connected, with their subgraph and node-id list. -/
def find_problematic_nodes (g : Digraph) : List (String × Digraph × List String) :=
  ((speciesNamesDedup g).filter
      (fun nm => (speciesNodesFor g nm).length > 1)).filterMap
    (fun nm =>
      if (is_node_connected g (speciesNodesFor g nm)).1 = true then none
      else some (nm, (is_node_connected g (speciesNodesFor g nm)).2,
        speciesNodesFor g nm))

/-- The flagged names, in detection order. -/
def problemNames (g : Digraph) : List String :=
  (find_problematic_nodes g).map (·.1)

/-- Membership in the grouped species names. -/
theorem mem_speciesNamesDedup (g : Digraph) (name : String) :
    name ∈ speciesNamesDedup g ↔
      ∃ n ∈ g.nodes, n.ntype = "species" ∧ n.name = name := by
  simp [speciesNamesDedup, List.mem_filter, and_assoc]

/-- A name with at least one species node is among the grouped names. -/
theorem mem_speciesNamesDedup_of_len (g : Digraph) (name : String)
    (h : (speciesNodesFor g name).length > 1) : name ∈ speciesNamesDedup g := by
  rw [mem_speciesNamesDedup]
  rw [speciesNodesFor, List.length_map] at h
  have hne : (g.nodes.filter (fun n => n.ntype == "species" && n.name == name)) ≠ [] := by
    intro hnil
    rw [hnil] at h
    simp at h
  obtain ⟨n, hn⟩ := List.exists_mem_of_ne_nil _ hne
  obtain ⟨hmem, hpred⟩ := List.mem_filter.mp hn
  simp only [Bool.and_eq_true, beq_iff_eq] at hpred
  exact ⟨n, hmem, hpred.1, hpred.2⟩

/-- Concrete reactions for the C2 scenario: two internally connected
components sharing the species name `X` (different compartments) with no
inter-component path. -/
def rDisc1 : Reaction :=
  ⟨"R1", "catalysis", "", [⟨"X", "protein", "cytoplasm"⟩],
   [⟨"Y", "protein", "cytoplasm"⟩], [], false, false⟩

/-- Second component of the C2 scenario. -/
def rDisc2 : Reaction :=
  ⟨"R2", "catalysis", "", [⟨"X", "protein", "nucleus"⟩],
   [⟨"Z", "protein", "nucleus"⟩], [], false, false⟩

/-- The two-component adapter for the C2 scenario. -/
def adDisc : PSSAdapter := ⟨[("R1", rDisc1), ("R2", rDisc2)], [], false⟩

/-- The disconnected two-component graph of the C2 scenario. -/
def gDisc : Digraph := createDigraph cfg0 adDisc true

/-- The same graph with one bridging edge between the components. -/
def gBridged : Digraph := addEdge gDisc "R1" "R2" "substrate"

/-- C2: `find_problematic_nodes` flags exactly the species names with
more than one node whose 1-hop-neighbourhood induced subgraph is not
weakly connected; concretely, the two-component graph sharing name `X`
is flagged, and after adding one bridging edge it is not. -/
theorem find_problematic_nodes_spec :
    (∀ (g : Digraph) (name : String),
      name ∈ problemNames g ↔
        ((speciesNodesFor g name).length > 1 ∧
         isWeaklyConnected (inducedSubgraph g
           (neighbourhood g (speciesNodesFor g name) ++ speciesNodesFor g name)) = false)) ∧
    problemNames gDisc = ["X"] ∧
    problemNames gBridged = [] := by
  refine ⟨?_, by decide, by decide⟩
  intro g name
  have hconn : ∀ s : List String, (is_node_connected g s).1 =
      isWeaklyConnected (inducedSubgraph g (neighbourhood g s ++ s)) := fun s => rfl
  constructor
  · intro h
    rw [problemNames, find_problematic_nodes] at h
    obtain ⟨trip, hmem, hfst⟩ := List.mem_map.mp h
    obtain ⟨nm', hnm', heq⟩ := List.mem_filterMap.mp hmem
    by_cases hc : (is_node_connected g (speciesNodesFor g nm')).1 = true
    · simp [hc] at heq
    · rw [if_neg hc] at heq
      have htrip := Option.some.inj heq
      have hnm : nm' = name := by
        rw [← hfst, ← htrip]
      subst hnm
      obtain ⟨_, hlen⟩ := List.mem_filter.mp hnm'
      refine ⟨by simpa using hlen, ?_⟩
      rw [← hconn]
      simpa using hc
  · rintro ⟨hlen, hfalse⟩
    rw [problemNames, find_problematic_nodes]
    apply List.mem_map.mpr
    refine ⟨(name, (is_node_connected g (speciesNodesFor g name)).2,
      speciesNodesFor g name), ?_, rfl⟩
    apply List.mem_filterMap.mpr
    refine ⟨name, ?_, ?_⟩
    · exact List.mem_filter.mpr
        ⟨mem_speciesNamesDedup_of_len g name hlen, by simpa using hlen⟩
    · rw [if_neg]
      rw [hconn]
      simp [hfalse]

/-! ### The repair advisor (model_fixes/model_fixes.py) -/

/-- `ModelFixTypes.FORM_PROTEIN_PRODUCT_ACTIVE`. -/
def FORM_PROTEIN_PRODUCT_ACTIVE : String := "fix-form:protein-product-active"

/-- `ModelFixTypes.FORM_COMPLEX_SUBSTRATE_ACTIVE`. -/
def FORM_COMPLEX_SUBSTRATE_ACTIVE : String := "fix-form:complex-substrate-active"

/-- `ModelFixTypes.FORM_COMPLEX_PRODUCT_ACTIVE`. -/
def FORM_COMPLEX_PRODUCT_ACTIVE : String := "fix-form:complex-product-active"

/-- `ModelFixTypes.LOC_TRANSPORT_TO_CONSUMED`. -/
def LOC_TRANSPORT_TO_CONSUMED : String := "fix-loc:transport-to-consumed-compartment"

/-- `ModelFixTypes.LOC_TRANSPORT_FROM_PRODUCED`. -/
def LOC_TRANSPORT_FROM_PRODUCED : String := "fix-loc:transport-from-produced-compartment"

/-- `ModelFixTypes.LOC_TRANSPORT_PROTEIN_ER_TO_CYT`. -/
def LOC_TRANSPORT_PROTEIN_ER_TO_CYT : String := "fix-loc:protein-er-to-cyt"

/-- `ModelFixTypes.LOC_TRANSPORT_FROM_CYT`. -/
def LOC_TRANSPORT_FROM_CYT : String := "fix-loc:from-cyt"

/-- A fix record: `ReactionFix` (retarget a participant's form or
location) or `TransportReaction` (insert a synthetic transport
reaction). -/
inductive Fix where
  | retarget (reaction_id species_role name : String)
      (new_form new_location : Option String) (fix_type : String)
  | transport (name form source_compartment target_compartment fix_type : String)
deriving DecidableEq

/-- The `fix_type` tag of a fix. -/
def Fix.fixType : Fix → String
  | .retarget _ _ _ _ _ ft => ft
  | .transport _ _ _ _ ft => ft

/-- `nx.weakly_connected_components` worker: scan nodes in order and BFS
each unvisited one. -/
def weakComponentsAux (g : Digraph) : List String → List String → List (List String)
  | [], _ => []
  | n :: rest, visited =>
    if visited.contains n then weakComponentsAux g rest visited
    else
      (reachableUndir g n) :: weakComponentsAux g rest (visited ++ reachableUndir g n)

/-- `list(nx.weakly_connected_components(subgraph))`: the weakly
connected components, each as the list of its nodes. -/
def weakComponents (g : Digraph) : List (List String) :=
  weakComponentsAux g (g.nodes.map (·.id)) []

/-- Python set equality between two value collections. -/
def sameSet (a b : List String) : Bool :=
  a.all (fun x => decide (x ∈ b)) && b.all (fun x => decide (x ∈ a))

/-- `{subgraph.nodes[n].get('form') for n in comp if n in species}` as a
deduplicated list. -/
def compFormSet (g : Digraph) (species comp : List String) : List String :=
  ((comp.filter (fun n => species.contains n)).map (nodeForm g)).dedup

/-- Set-equality membership of a target set in a list of sets
(Python `target in comp_forms`). -/
def memSetList (fs : List (List String)) (target : List String) : Bool :=
  fs.any (fun f => sameSet f target)

/-- A reaction node of the subgraph with a `product` edge to one of the
species nodes (model_fixes.py line 338). -/
def hasProductEdgeTo (g : Digraph) (r : String) (species : List String) : Bool :=
  g.edges.any (fun e => e.src == r && e.etype == "product" && species.contains e.tgt)

/-- A reaction node of the subgraph with a `substrate` edge from one of
the species nodes (model_fixes.py line 373). -/
def hasSubstrateEdgeFrom (g : Digraph) (r : String) (species : List String) : Bool :=
  g.edges.any (fun e => e.tgt == r && e.etype == "substrate" && species.contains e.src)

/-- The `translation_reactions` filter (model_fixes.py lines 333-339). -/
def ttReactionsIn (g : Digraph) (species comp : List String) : List String :=
  comp.filter (fun r => nodeType g r == "reaction"
    && TRANSCRIPTIONAL_TRANSLATIONAL.contains (nodeRType g r)
    && hasProductEdgeTo g r species)

/-- The `binding_reactions` filter of the protein branch
(model_fixes.py lines 368-374). -/
def bindingSubstrateReactionsIn (g : Digraph) (species comp : List String) : List String :=
  comp.filter (fun r => nodeType g r == "reaction"
    && nodeRType g r == BINDING_OLIGOMERISATION
    && hasSubstrateEdgeFrom g r species)

/-- The `binding_reactions` filter of the complex branch
(model_fixes.py lines 408-413; no edge condition). -/
def bindingReactionsIn (g : Digraph) (comp : List String) : List String :=
  comp.filter (fun r => nodeType g r == "reaction"
    && nodeRType g r == BINDING_OLIGOMERISATION)

/-- `ModelFixer._suggest_fixes_form` (model_fixes.py lines 285-436). -/
def suggest_fixes_form (node_name : String) (species : List String) (g : Digraph) :
    List Fix :=
  let comps := weakComponents g
  let compForms := comps.map (compFormSet g species)
  if comps.length > 2 then []
  else if (memSetList compForms ["protein"] || memSetList compForms ["gene", "protein"])
      && (memSetList compForms ["protein_active"]
          || memSetList compForms ["gene", "protein_active"]) then
    let proteinComp :=
      if memSetList compForms ["protein"] then
        comps.getD (compForms.findIdx (fun f => sameSet f ["protein"])) []
      else
        comps.getD (compForms.findIdx (fun f => sameSet f ["gene", "protein"])) []
    if (ttReactionsIn g species proteinComp).isEmpty then
      (bindingSubstrateReactionsIn g species proteinComp).map (fun rid =>
        Fix.retarget rid "substrate" node_name (some "protein_active") none
          FORM_COMPLEX_SUBSTRATE_ACTIVE)
    else
      (ttReactionsIn g species proteinComp).map (fun rid =>
        Fix.retarget rid "product" node_name (some "protein_active") none
          FORM_PROTEIN_PRODUCT_ACTIVE)
  else if memSetList compForms ["complex"] && memSetList compForms ["complex_active"] then
    ((comps.zip compForms).filter (fun p => sameSet p.2 ["complex"])).flatMap (fun p =>
      (bindingReactionsIn g p.1).map (fun rid =>
        Fix.retarget rid "product" node_name (some "complex_active") none
          FORM_COMPLEX_PRODUCT_ACTIVE))
  else []

/-- `forms_dict` of `_suggest_fixes_location` (lines 446-450): each form
with a truthy value, in first-occurrence order, with its species nodes. -/
def formsDict (g : Digraph) (species : List String) : List (String × List String) :=
  (((species.map (nodeForm g)).filter (fun f => f ≠ "")).dedup).map (fun f =>
    (f, species.filter (fun s => nodeForm g s == f)))

/-- The `locations` dict of one form (lines 460-463): species node ↦
truthy compartment. -/
def locationsOf (g : Digraph) (form_species : List String) : List (String × String) :=
  (form_species.filter (fun s => nodeCompartment g s ≠ "")).map
    (fun s => (s, nodeCompartment g s))

/-- `producing_compartments` (lines 488-495): product compartments of
non-translocation reactions. -/
def producingCompartments (g : Digraph) (form_species : List String) : List String :=
  ((g.nodes.filter (fun n => n.ntype == "reaction"
      && n.reaction_type != TRANSLOCATION)).flatMap (fun n =>
    (g.edges.filter (fun e => e.src == n.id && e.etype == "product"
      && form_species.contains e.tgt)).map (fun e => nodeCompartment g e.tgt))).dedup

/-- `transport_producing_compartments` (lines 498-505): product
compartments of translocation reactions. -/
def transportProducingCompartments (g : Digraph) (form_species : List String) :
    List String :=
  ((g.nodes.filter (fun n => n.ntype == "reaction"
      && n.reaction_type == TRANSLOCATION)).flatMap (fun n =>
    (g.edges.filter (fun e => e.src == n.id && e.etype == "product"
      && form_species.contains e.tgt)).map (fun e => nodeCompartment g e.tgt))).dedup

/-- `consuming_compartments` (lines 509-516): substrate/modifier source
compartments into any reaction. -/
def consumingCompartments (g : Digraph) (form_species : List String) : List String :=
  ((g.nodes.filter (fun n => n.ntype == "reaction")).flatMap (fun n =>
    (g.edges.filter (fun e => e.tgt == n.id
      && (e.etype == "substrate" || e.etype == "modifier")
      && form_species.contains e.src)).map (fun e => nodeCompartment g e.src))).dedup

/-- `need_to_transport_to` (lines 533-541): consuming compartments that
are neither producing nor transport-producing. -/
def needToList (g : Digraph) (form_species : List String) : List String :=
  (consumingCompartments g form_species).filter (fun c =>
    !((producingCompartments g form_species).contains c ||
      (transportProducingCompartments g form_species).contains c))

/-- Decision rule 1 of `_suggest_fixes_location` (lines 543-572): with a
unique producing compartment, transport it to every uncovered consuming
compartment; `producing_compartments.pop()` then leaves the Python set
empty, which is what the rule-2 block iterates over, so the second
component returns the producing compartments as rule 2 will see them. -/
def locRule1 (g : Digraph) (node_name form : String) (form_species : List String) :
    List Fix × List String :=
  let producing := producingCompartments g form_species
  if (needToList g form_species).isEmpty then ([], producing)
  else if producing.length = 0 then ([], producing)
  else if producing.length > 1 then ([], producing)
  else
    ((needToList g form_species).map (fun c =>
      Fix.transport node_name form (producing.getD 0 "") c LOC_TRANSPORT_TO_CONSUMED), [])

/-- Decision rule 2 of `_suggest_fixes_location` (lines 577-613), over
the producing compartments left after rule 1. -/
def locRule2 (g : Digraph) (node_name form : String) (form_species : List String)
    (producingLeft : List String) : List Fix :=
  let consuming := consumingCompartments g form_species
  let tp := transportProducingCompartments g form_species
  let needFrom := producingLeft.filter (fun c => !(consuming.contains c))
  if needFrom.isEmpty then []
  else if consuming.isEmpty then []
  else
    (consuming.filter (fun c => !(producingLeft.contains c || tp.contains c))).flatMap
      (fun tc => needFrom.map (fun fc =>
        Fix.transport node_name form fc tc LOC_TRANSPORT_FROM_PRODUCED))

/-- The body of the per-form loop of `_suggest_fixes_location` (lines
456-660).  `fixIdentified` threads the `fix_identified` flag, which is
shared across forms and gates the fallback heuristics.  The
weakly-connected-components computation of lines 452-484 only feeds
console output and is omitted. -/
def suggestLocForForm (g : Digraph) (node_name : String) (fixIdentified : Bool)
    (form : String) (form_species : List String) : List Fix × Bool :=
  if (locationsOf g form_species).length ≤ 1 then ([], fixIdentified)
  else
    let tp := transportProducingCompartments g form_species
    let consuming := consumingCompartments g form_species
    let rule1 := locRule1 g node_name form form_species
    let rule2 := locRule2 g node_name form form_species rule1.2
    if fixIdentified || !rule1.1.isEmpty || !rule2.isEmpty then
      (rule1.1 ++ rule2, fixIdentified || !rule1.1.isEmpty || !rule2.isEmpty)
    else if (form = "protein" ∨ form = "protein_active")
        && (locationsOf g form_species).any (fun p => p.2 == "endoplasmic reticulum") then
      if consuming.contains "cytoplasm" then
        ([Fix.transport node_name form "endoplasmic reticulum" "cytoplasm"
          LOC_TRANSPORT_PROTEIN_ER_TO_CYT], true)
      else ([], fixIdentified)
    else if (locationsOf g form_species).any (fun p => p.2 == "cytoplasm") then
      if ((consuming.filter (fun c => !(c == "cytoplasm" || tp.contains c))).isEmpty) then
        ([], fixIdentified)
      else
        ((consuming.filter (fun c => !(c == "cytoplasm" || tp.contains c))).map (fun c =>
          Fix.transport node_name form "cytoplasm" c LOC_TRANSPORT_FROM_CYT), true)
    else ([], fixIdentified)

/-- `ModelFixer._suggest_fixes_location` (lines 438-660): fold the
per-form body over the forms dict, threading `fix_identified`. -/
def suggest_fixes_location (node_name : String) (species : List String) (g : Digraph) :
    List Fix :=
  ((formsDict g species).foldl (fun (acc : List Fix × Bool) p =>
    let r := suggestLocForForm g node_name acc.2 p.1 p.2
    (acc.1 ++ r.1, r.2)) ([], false)).1

/-- `sameSet` is Python set equality of the underlying value sets. -/
theorem sameSet_iff (a b : List String) :
    sameSet a b = true ↔ ∀ x, x ∈ a ↔ x ∈ b := by
  simp only [sameSet, Bool.and_eq_true, List.all_eq_true, decide_eq_true_eq]
  constructor
  · rintro ⟨h1, h2⟩ x
    exact ⟨fun hx => h1 x hx, fun hx => h2 x hx⟩
  · intro h
    exact ⟨fun x hx => (h x).mp hx, fun x hx => (h x).mpr hx⟩

/-- Set-equal lists agree on every further set-equality test. -/
theorem sameSet_congr {a b : List String} (h : sameSet a b = true) (c : List String) :
    sameSet a c = sameSet b c := by
  rcases hbc : sameSet b c with _ | _
  · by_contra hac
    rw [Bool.not_eq_false] at hac
    rw [sameSet_iff] at h hac
    have hbc' : sameSet b c = true := by
      rw [sameSet_iff]
      intro x
      exact ⟨fun hx => (hac x).mp ((h x).mpr hx), fun hx => (h x).mp ((hac x).mpr hx)⟩
    rw [hbc] at hbc'
    cases hbc'
  · rw [sameSet_iff] at h hbc ⊢
    intro x
    exact (h x).trans (hbc x)

/-- Evaluation of the protein/protein_active branch of
`suggest_fixes_form` on a two-component subgraph, with the selected
protein component abstracted. -/
theorem suggest_form_eval (name : String) (species : List String) (g : Digraph)
    (c0 c1 pc : List String)
    (hc : weakComponents g = [c0, c1])
    (h1 : (memSetList [compFormSet g species c0, compFormSet g species c1] ["protein"] ||
        memSetList [compFormSet g species c0, compFormSet g species c1]
          ["gene", "protein"]) = true)
    (h2 : (memSetList [compFormSet g species c0, compFormSet g species c1]
          ["protein_active"] ||
        memSetList [compFormSet g species c0, compFormSet g species c1]
          ["gene", "protein_active"]) = true)
    (hpc : (if memSetList [compFormSet g species c0, compFormSet g species c1] ["protein"]
        then [c0, c1].getD (List.findIdx (fun f => sameSet f ["protein"])
          [compFormSet g species c0, compFormSet g species c1]) []
        else [c0, c1].getD (List.findIdx (fun f => sameSet f ["gene", "protein"])
          [compFormSet g species c0, compFormSet g species c1]) []) = pc)
    (ht : ttReactionsIn g species pc ≠ []) :
    suggest_fixes_form name species g = (ttReactionsIn g species pc).map (fun rid =>
      Fix.retarget rid "product" name (some "protein_active") none
        FORM_PROTEIN_PRODUCT_ACTIVE) := by
  simp only [suggest_fixes_form]
  rw [hc]
  simp only [List.map_cons, List.map_nil]
  rw [if_neg (by simp)]
  rw [if_pos (by simp [h1, h2])]
  rw [hpc]
  rw [if_neg (by simp [List.isEmpty_iff, ht])]

/-- C3: on a problematic species subgraph with more than two weakly
connected components, form-repair suggests no fix; on a two-component
subgraph where one component's form-set is exactly `{protein}` or
`{gene, protein}` and the other's is exactly `{protein_active}` or
`{gene, protein_active}`, and the protein component contains
transcriptional/translational reactions with a product edge to the
species, the suggested fixes are exactly one product-role retarget to
`protein_active` per such reaction (both component orders). -/
theorem suggest_fixes_form_spec :
    (∀ (name : String) (species : List String) (g : Digraph),
      (weakComponents g).length > 2 → suggest_fixes_form name species g = []) ∧
    (∀ (name : String) (species : List String) (g : Digraph) (c0 c1 : List String),
      weakComponents g = [c0, c1] →
      (sameSet (compFormSet g species c0) ["protein"] = true ∨
       sameSet (compFormSet g species c0) ["gene", "protein"] = true) →
      (sameSet (compFormSet g species c1) ["protein_active"] = true ∨
       sameSet (compFormSet g species c1) ["gene", "protein_active"] = true) →
      ttReactionsIn g species c0 ≠ [] →
      suggest_fixes_form name species g = (ttReactionsIn g species c0).map (fun rid =>
        Fix.retarget rid "product" name (some "protein_active") none
          FORM_PROTEIN_PRODUCT_ACTIVE)) ∧
    (∀ (name : String) (species : List String) (g : Digraph) (c0 c1 : List String),
      weakComponents g = [c0, c1] →
      (sameSet (compFormSet g species c1) ["protein"] = true ∨
       sameSet (compFormSet g species c1) ["gene", "protein"] = true) →
      (sameSet (compFormSet g species c0) ["protein_active"] = true ∨
       sameSet (compFormSet g species c0) ["gene", "protein_active"] = true) →
      ttReactionsIn g species c1 ≠ [] →
      suggest_fixes_form name species g = (ttReactionsIn g species c1).map (fun rid =>
        Fix.retarget rid "product" name (some "protein_active") none
          FORM_PROTEIN_PRODUCT_ACTIVE)) := by
  refine ⟨?_, ?_, ?_⟩
  · intro name species g h
    simp only [suggest_fixes_form]
    rw [if_pos h]
  · intro name species g c0 c1 hc hp ha ht
    have h1p : sameSet (compFormSet g species c1) ["protein"] = false := by
      rcases ha with h | h <;> rw [sameSet_congr h] <;> decide
    have h1gp : sameSet (compFormSet g species c1) ["gene", "protein"] = false := by
      rcases ha with h | h <;> rw [sameSet_congr h] <;> decide
    have h2 : (memSetList [compFormSet g species c0, compFormSet g species c1]
          ["protein_active"] ||
        memSetList [compFormSet g species c0, compFormSet g species c1]
          ["gene", "protein_active"]) = true := by
      rcases ha with h | h <;> simp [memSetList, h]
    rcases hp with h0 | h0
    · apply suggest_form_eval name species g c0 c1 c0 hc (by simp [memSetList, h0]) h2 ?_ ht
      rw [if_pos (by simp [memSetList, h0])]
      simp [List.findIdx_cons, h0]
    · have h0p : sameSet (compFormSet g species c0) ["protein"] = false := by
        rw [sameSet_congr h0]; decide
      apply suggest_form_eval name species g c0 c1 c0 hc
        (by simp [memSetList, h0]) h2 ?_ ht
      rw [if_neg (by simp [memSetList, h0p, h1p])]
      simp [List.findIdx_cons, h0]
  · intro name species g c0 c1 hc hp ha ht
    have h0p : sameSet (compFormSet g species c0) ["protein"] = false := by
      rcases ha with h | h <;> rw [sameSet_congr h] <;> decide
    have h0gp : sameSet (compFormSet g species c0) ["gene", "protein"] = false := by
      rcases ha with h | h <;> rw [sameSet_congr h] <;> decide
    have h2 : (memSetList [compFormSet g species c0, compFormSet g species c1]
          ["protein_active"] ||
        memSetList [compFormSet g species c0, compFormSet g species c1]
          ["gene", "protein_active"]) = true := by
      rcases ha with h | h <;> simp [memSetList, h]
    rcases hp with h1 | h1
    · apply suggest_form_eval name species g c0 c1 c1 hc
        (by simp [memSetList, h1]) h2 ?_ ht
      rw [if_pos (by simp [memSetList, h1])]
      simp [List.findIdx_cons, h0p, h1]
    · have h1pf : sameSet (compFormSet g species c1) ["protein"] = false := by
        rw [sameSet_congr h1]; decide
      apply suggest_form_eval name species g c0 c1 c1 hc
        (by simp [memSetList, h1]) h2 ?_ ht
      rw [if_neg (by simp [memSetList, h0p, h1pf])]
      simp [List.findIdx_cons, h0gp, h1]

/-- Two-component subgraph for the C3 witness: protein component first. -/
def gFormW : Digraph :=
  ⟨[⟨"sWp", "species", "W", "protein", "cytoplasm", ""⟩,
    ⟨"rT", "reaction", "", "reaction", "", "transcriptional/translational activation"⟩,
    ⟨"sWpa", "species", "W", "protein_active", "cytoplasm", ""⟩,
    ⟨"rC", "reaction", "", "reaction", "", "catalysis"⟩],
   [⟨"rT", "sWp", "product"⟩, ⟨"sWpa", "rC", "modifier"⟩]⟩

/-- The same subgraph with the active component listed first. -/
def gFormWSwap : Digraph :=
  ⟨[⟨"sWpa", "species", "W", "protein_active", "cytoplasm", ""⟩,
    ⟨"rC", "reaction", "", "reaction", "", "catalysis"⟩,
    ⟨"sWp", "species", "W", "protein", "cytoplasm", ""⟩,
    ⟨"rT", "reaction", "", "reaction", "", "transcriptional/translational activation"⟩],
   [⟨"rT", "sWp", "product"⟩, ⟨"sWpa", "rC", "modifier"⟩]⟩

/-- Three isolated species nodes sharing a name: more than two
components. -/
def gForm3 : Digraph :=
  ⟨[⟨"s1", "species", "V", "protein", "cytoplasm", ""⟩,
    ⟨"s2", "species", "V", "protein_active", "cytoplasm", ""⟩,
    ⟨"s3", "species", "V", "complex", "cytoplasm", ""⟩], []⟩

/-- Witness for C3: the three clauses at concrete subgraphs. -/
theorem suggest_fixes_form_spec_witness :
    suggest_fixes_form "V" ["s1", "s2", "s3"] gForm3 = [] ∧
    suggest_fixes_form "W" ["sWp", "sWpa"] gFormW =
      [Fix.retarget "rT" "product" "W" (some "protein_active") none
        FORM_PROTEIN_PRODUCT_ACTIVE] ∧
    suggest_fixes_form "W" ["sWp", "sWpa"] gFormWSwap =
      [Fix.retarget "rT" "product" "W" (some "protein_active") none
        FORM_PROTEIN_PRODUCT_ACTIVE] := by
  refine ⟨?_, ?_, ?_⟩
  · exact suggest_fixes_form_spec.1 "V" ["s1", "s2", "s3"] gForm3 (by decide)
  · have h := suggest_fixes_form_spec.2.1 "W" ["sWp", "sWpa"] gFormW
      ["sWp", "rT"] ["sWpa", "rC"] (by decide) (by decide) (by decide) (by decide)
    rw [h]
    decide
  · have h := suggest_fixes_form_spec.2.2 "W" ["sWp", "sWpa"] gFormWSwap
      ["sWpa", "rC"] ["sWp", "rT"] (by decide) (by decide) (by decide) (by decide)
    rw [h]
    decide

/-- Rule 1 with a unique producing compartment and an uncovered consuming
compartment: transport fixes from that producer, and an emptied
producing set. -/
theorem locRule1_single (g : Digraph) (name form : String) (fs : List String)
    (pc : String) (hpc : producingCompartments g fs = [pc])
    (hne : needToList g fs ≠ []) :
    locRule1 g name form fs = ((needToList g fs).map (fun c =>
      Fix.transport name form pc c LOC_TRANSPORT_TO_CONSUMED), []) := by
  have h1 : (needToList g fs).isEmpty = false := by
    rcases h : needToList g fs with _ | ⟨a, l⟩
    · exact absurd h hne
    · rfl
  simp only [locRule1, hpc]
  rw [if_neg (by simp [h1]), if_neg (by simp), if_neg (by simp)]
  simp [List.getD]

/-- Rule 1 with zero or several producing compartments suggests nothing
and leaves the producing set untouched. -/
theorem locRule1_nonsingle (g : Digraph) (name form : String) (fs : List String)
    (h : (producingCompartments g fs).length ≠ 1) :
    locRule1 g name form fs = ([], producingCompartments g fs) := by
  simp only [locRule1]
  split_ifs with h1 h2 h3
  · rfl
  · rfl
  · rfl
  · omega

/-- Rule 2 over an empty remaining producing set suggests nothing. -/
theorem locRule2_nil (g : Digraph) (name form : String) (fs : List String) :
    locRule2 g name form fs [] = [] := by
  simp [locRule2]

/-- Every rule-2 fix carries the FROM_PRODUCED tag. -/
theorem locRule2_fixType (g : Digraph) (name form : String) (fs : List String)
    (pl : List String) :
    ∀ fx ∈ locRule2 g name form fs pl, fx.fixType = LOC_TRANSPORT_FROM_PRODUCED := by
  intro fx hfx
  simp only [locRule2] at hfx
  split_ifs at hfx
  · simp at hfx
  · simp at hfx
  · simp only [List.mem_flatMap, List.mem_map] at hfx
    obtain ⟨tc, _, fc, _, rfl⟩ := hfx
    rfl

/-- C4 (amended): for a form in at least two compartments, rule 1
suggests a transport from the unique producing compartment to every
uncovered consuming compartment; rule 2 suggests transports from every
non-consumed producing compartment to every uncovered consuming
compartment, but only when more than one producing compartment exists —
after rule 1 fires, its `pop()` has emptied the producing set and rule 2
suggests nothing; and with zero or several producing compartments no
rule-1 (TO_CONSUMED) fix is ever suggested. -/
theorem suggest_location_rules (g : Digraph) (name form : String)
    (fs : List String) (fi : Bool) (h2 : ¬ (locationsOf g fs).length ≤ 1) :
    (∀ pc, producingCompartments g fs = [pc] → needToList g fs ≠ [] →
      (suggestLocForForm g name fi form fs).1 = (needToList g fs).map (fun c =>
        Fix.transport name form pc c LOC_TRANSPORT_TO_CONSUMED)) ∧
    (2 ≤ (producingCompartments g fs).length → needToList g fs ≠ [] →
      (producingCompartments g fs).filter
        (fun c => !((consumingCompartments g fs).contains c)) ≠ [] →
      (suggestLocForForm g name fi form fs).1 = (needToList g fs).flatMap (fun tc =>
        ((producingCompartments g fs).filter
          (fun c => !((consumingCompartments g fs).contains c))).map (fun fc =>
          Fix.transport name form fc tc LOC_TRANSPORT_FROM_PRODUCED))) ∧
    ((producingCompartments g fs).length ≠ 1 →
      ∀ fx ∈ (suggestLocForForm g name fi form fs).1,
        fx.fixType ≠ LOC_TRANSPORT_TO_CONSUMED) := by
  refine ⟨?_, ?_, ?_⟩
  · intro pc hpc hne
    have hr1 := locRule1_single g name form fs pc hpc hne
    have hmapne : (needToList g fs).map (fun c =>
        Fix.transport name form pc c LOC_TRANSPORT_TO_CONSUMED) ≠ [] := by
      simpa using hne
    have hmape : ((needToList g fs).map (fun c =>
        Fix.transport name form pc c LOC_TRANSPORT_TO_CONSUMED)).isEmpty = false := by
      rcases h : (needToList g fs).map (fun c =>
          Fix.transport name form pc c LOC_TRANSPORT_TO_CONSUMED) with _ | ⟨a, l⟩
      · exact absurd h hmapne
      · rfl
    simp only [suggestLocForForm, hr1, locRule2_nil]
    rw [if_neg h2]
    rw [if_pos (by simp [hmape])]
    simp
  · intro hlen hne hfrom
    have hr1 := locRule1_nonsingle g name form fs (by omega)
    have hconsne : consumingCompartments g fs ≠ [] := by
      intro hnil
      apply hne
      simp [needToList, hnil]
    have hconse : (consumingCompartments g fs).isEmpty = false := by
      rcases h : consumingCompartments g fs with _ | ⟨a, l⟩
      · exact absurd h hconsne
      · rfl
    have hfrome : ((producingCompartments g fs).filter
        (fun c => !((consumingCompartments g fs).contains c))).isEmpty = false := by
      rcases h : (producingCompartments g fs).filter
          (fun c => !((consumingCompartments g fs).contains c)) with _ | ⟨a, l⟩
      · exact absurd h hfrom
      · rfl
    have hr2 : locRule2 g name form fs (producingCompartments g fs) =
        (needToList g fs).flatMap (fun tc =>
          ((producingCompartments g fs).filter
            (fun c => !((consumingCompartments g fs).contains c))).map (fun fc =>
            Fix.transport name form fc tc LOC_TRANSPORT_FROM_PRODUCED)) := by
      simp only [locRule2]
      rw [if_neg (by rw [hfrome]; simp), if_neg (by rw [hconse]; simp)]
      rfl
    have hr2ne : locRule2 g name form fs (producingCompartments g fs) ≠ [] := by
      rw [hr2]
      rcases hto : needToList g fs with _ | ⟨tc, ts⟩
      · exact absurd hto hne
      · rcases hfr : (producingCompartments g fs).filter
            (fun c => !((consumingCompartments g fs).contains c)) with _ | ⟨fc, fl⟩
        · exact absurd hfr hfrom
        · simp [hfr]
    have hr2e : (locRule2 g name form fs (producingCompartments g fs)).isEmpty = false := by
      rcases h : locRule2 g name form fs (producingCompartments g fs) with _ | ⟨a, l⟩
      · exact absurd h hr2ne
      · rfl
    simp only [suggestLocForForm, hr1]
    rw [if_neg h2]
    rw [if_pos (by simp [hr2e])]
    simp [hr2]
  · intro hlen fx hfx
    have hr1 := locRule1_nonsingle g name form fs hlen
    simp only [suggestLocForForm, hr1] at hfx
    rw [if_neg h2] at hfx
    split_ifs at hfx with hA hB hC hD hE
    · simp only [List.nil_append] at hfx
      have := locRule2_fixType g name form fs (producingCompartments g fs) fx
        (by simpa using hfx)
      rw [this]
      decide
    · simp at hfx
      rw [hfx]
      simp only [Fix.fixType]
      decide
    · simp at hfx
    · simp at hfx
    · simp only [List.mem_map] at hfx
      obtain ⟨c, _, rfl⟩ := hfx
      simp only [Fix.fixType]
      decide
    · simp at hfx

/-- C4 counterexample input: species `X`, form `protein`, produced in the
nucleus (by `rP`) and consumed in the cytoplasm (by `rC`), with no
transport. -/
def gLocC4 : Digraph :=
  ⟨[⟨"sXn", "species", "X", "protein", "nucleus", ""⟩,
    ⟨"sXc", "species", "X", "protein", "cytoplasm", ""⟩,
    ⟨"rP", "reaction", "", "reaction", "", "catalysis"⟩,
    ⟨"rC", "reaction", "", "reaction", "", "catalysis"⟩],
   [⟨"rP", "sXn", "product"⟩, ⟨"sXc", "rC", "substrate"⟩]⟩

/-- The second decision rule of claim C4 formalized as the claim states
it: for each producing compartment not consumed, with at least one
consuming compartment, a FROM_PRODUCED transport fix to every consuming
compartment not covered by the producing or transport-producing
compartments is among the suggestions. -/
def c4RuleTwoDemand (node_name : String) (species : List String) (g : Digraph) : Prop :=
  ∀ p ∈ formsDict g species,
    2 ≤ (locationsOf g p.2).length →
    ∀ pc ∈ producingCompartments g p.2,
      pc ∉ consumingCompartments g p.2 →
      consumingCompartments g p.2 ≠ [] →
      ∀ cc ∈ consumingCompartments g p.2,
        cc ∉ producingCompartments g p.2 →
        cc ∉ transportProducingCompartments g p.2 →
        Fix.transport node_name p.1 pc cc LOC_TRANSPORT_FROM_PRODUCED ∈
          suggest_fixes_location node_name species g

/-- C4 counterexample: on `gLocC4` the nucleus is producing and not
consuming, the cytoplasm is consuming and uncovered, yet the code
suggests no FROM_PRODUCED fix — rule 1 fired with the unique producer
and its `pop()` emptied the producing set before rule 2 ran. -/
theorem location_rule_two_counterexample :
    ¬ c4RuleTwoDemand "X" ["sXn", "sXc"] gLocC4 := by
  intro h
  have hm := h ("protein", ["sXn", "sXc"]) (by decide) (by decide) "nucleus"
    (by decide) (by decide) (by decide) "cytoplasm" (by decide) (by decide) (by decide)
  exact absurd hm (by decide)

/-- Witness input with two producing compartments (nucleus, vacuole) and
one uncovered consuming compartment (cytoplasm). -/
def gLocRule2 : Digraph :=
  ⟨[⟨"sXn", "species", "X", "protein", "nucleus", ""⟩,
    ⟨"sXv", "species", "X", "protein", "vacuole", ""⟩,
    ⟨"sXc", "species", "X", "protein", "cytoplasm", ""⟩,
    ⟨"rP1", "reaction", "", "reaction", "", "catalysis"⟩,
    ⟨"rP2", "reaction", "", "reaction", "", "catalysis"⟩,
    ⟨"rC", "reaction", "", "reaction", "", "catalysis"⟩],
   [⟨"rP1", "sXn", "product"⟩, ⟨"rP2", "sXv", "product"⟩, ⟨"sXc", "rC", "substrate"⟩]⟩

/-- Witness for the amended C4 theorem: rule 1 on the single-producer
graph, rule 2 on the two-producer graph, and the absence of a rule-1 fix
in the ambiguous case. -/
theorem suggest_location_rules_witness :
    (suggestLocForForm gLocC4 "X" false "protein" ["sXn", "sXc"]).1 =
      [Fix.transport "X" "protein" "nucleus" "cytoplasm" LOC_TRANSPORT_TO_CONSUMED] ∧
    (suggestLocForForm gLocRule2 "X" false "protein" ["sXn", "sXv", "sXc"]).1 =
      [Fix.transport "X" "protein" "nucleus" "cytoplasm" LOC_TRANSPORT_FROM_PRODUCED,
       Fix.transport "X" "protein" "vacuole" "cytoplasm" LOC_TRANSPORT_FROM_PRODUCED] ∧
    Fix.transport "X" "protein" "nucleus" "cytoplasm" LOC_TRANSPORT_TO_CONSUMED ∉
      (suggestLocForForm gLocRule2 "X" false "protein" ["sXn", "sXv", "sXc"]).1 := by
  refine ⟨?_, ?_, ?_⟩
  · have h := (suggest_location_rules gLocC4 "X" "protein" ["sXn", "sXc"] false
      (by decide)).1 "nucleus" (by decide) (by decide)
    rw [h]
    decide
  · have h := (suggest_location_rules gLocRule2 "X" "protein" ["sXn", "sXv", "sXc"] false
      (by decide)).2.1 (by decide) (by decide) (by decide)
    rw [h]
    decide
  · intro hmem
    have h := (suggest_location_rules gLocRule2 "X" "protein" ["sXn", "sXv", "sXc"] false
      (by decide)).2.2 (by decide) _ hmem
    exact h rfl

/-! ### Applying fixes (model_fixes.py lines 700-754) -/

/-- `getattr(reaction, fix.species_role + 's', [])`. -/
def roleList (r : Reaction) (role : String) : List Species :=
  if role = "substrate" then r.substrates
  else if role = "product" then r.products
  else if role = "modifier" then r.modifiers
  else []

/-- Write back the species list of a role. -/
def setRoleList (r : Reaction) (role : String) (l : List Species) : Reaction :=
  if role = "substrate" then { r with substrates := l }
  else if role = "product" then { r with products := l }
  else if role = "modifier" then { r with modifiers := l }
  else r

/-- In-place mutation of the reaction registered under an id. -/
def updateReactionIn : List (String × Reaction) → String → Reaction →
    List (String × Reaction)
  | [], _, _ => []
  | (k, r0) :: rest, i, r =>
    if k = i then (k, r) :: rest else (k, r0) :: updateReactionIn rest i r

/-- The deterministic synthetic transport-reaction id (model_fixes.py
lines 729-730). -/
def transportReactionId (cfg : Config) (name form src tgt : String) : String :=
  "transport_" ++ remove_nonalphanum (get_display_label name) ++ "_" ++
  cfg.node_form_to_short form ++ "_" ++ cfg.compartment_to_short src ++
  "_to_" ++ cfg.compartment_to_short tgt

/-- The synthesized translocation reaction (lines 739-747): one substrate
at the source compartment and one product at the target compartment. -/
def transportReaction (cfg : Config) (name form src tgt ft : String)
    (include_genes : Bool) : Reaction :=
  { id := transportReactionId cfg name form src tgt
    reaction_type := TRANSLOCATION
    export_notes := ft
    substrates := [mkSpecies name form (some src)]
    products := [mkSpecies name form (some tgt)]
    modifiers := []
    include_conditions := false
    include_genes := include_genes }

/-- One iteration of the `for fix in fixes` loop of
`ModelFixer.apply_model_fixes` (lines 702-751): the updated adapter and
the number of fixes applied by this iteration. -/
def applyOneFix (cfg : Config) (st : PSSAdapter) (fx : Fix) : PSSAdapter × Nat :=
  match fx with
  | .retarget rid role name new_form new_location _ft =>
    match lookupReaction st.reactions rid with
    | none => (st, 0)
    | some r =>
      let sps := roleList r role
      let count := sps.countP (fun sp => sp.name == name)
      let sps' := sps.map (fun sp =>
        if sp.name = name then
          if new_form.getD "" ≠ "" then { sp with form := new_form.getD "" }
          else if new_location.getD "" ≠ "" then
            { sp with compartment := new_location.getD "" }
          else sp
        else sp)
      let r' := setRoleList r role sps'
      let r'' := { r' with export_notes := r'.export_notes ++ _ft }
      ({ st with reactions := updateReactionIn st.reactions rid r'' }, count)
  | .transport name form src tgt ft =>
    match lookupReaction st.reactions (transportReactionId cfg name form src tgt) with
    | some _ => (st, 0)
    | none =>
      ({ st with
          reactions := st.reactions ++ [(transportReactionId cfg name form src tgt,
            transportReaction cfg name form src tgt ft st.include_genes)]
          additional_reactions := st.additional_reactions ++
            [transportReactionId cfg name form src tgt] }, 1)

/-- `ModelFixer.apply_model_fixes`: fold the loop, accumulating the
applied-fix count. -/
def apply_model_fixes (cfg : Config) (st : PSSAdapter) (fixes : List Fix) :
    PSSAdapter × Nat :=
  fixes.foldl (fun acc fx =>
    ((applyOneFix cfg acc.1 fx).1, acc.2 + (applyOneFix cfg acc.1 fx).2)) (st, 0)

/-- Appending a fresh id to the reaction dict makes it found. -/
theorem lookupReaction_append_self (m : List (String × Reaction)) (i : String)
    (r : Reaction) (h : lookupReaction m i = none) :
    lookupReaction (m ++ [(i, r)]) i = some r := by
  induction m with
  | nil => simp [lookupReaction]
  | cons e rest ih =>
    obtain ⟨k, r0⟩ := e
    by_cases hk : k = i
    · simp [lookupReaction, hk] at h
    · simp only [lookupReaction, hk, if_false] at h
      simp [lookupReaction, hk, ih h]

/-- C5: applying a transport-insertion fix twice with identical
(name, form, source, target) registers exactly one synthetic reaction —
the second application is a no-op because the deterministic id already
exists — and the registered reaction is a translocation with exactly one
substrate (name, form, source) and one product (name, form, target). -/
theorem apply_transport_fix_idempotent (cfg : Config) (st : PSSAdapter)
    (name form src tgt ft : String)
    (hfresh : lookupReaction st.reactions
      (transportReactionId cfg name form src tgt) = none) :
    apply_model_fixes cfg st [Fix.transport name form src tgt ft] =
      ({ st with
          reactions := st.reactions ++ [(transportReactionId cfg name form src tgt,
            transportReaction cfg name form src tgt ft st.include_genes)]
          additional_reactions := st.additional_reactions ++
            [transportReactionId cfg name form src tgt] }, 1) ∧
    apply_model_fixes cfg
        (apply_model_fixes cfg st [Fix.transport name form src tgt ft]).1
        [Fix.transport name form src tgt ft] =
      ((apply_model_fixes cfg st [Fix.transport name form src tgt ft]).1, 0) ∧
    (apply_model_fixes cfg st [Fix.transport name form src tgt ft]).1.reactions.length =
      st.reactions.length + 1 ∧
    lookupReaction
        (apply_model_fixes cfg st [Fix.transport name form src tgt ft]).1.reactions
        (transportReactionId cfg name form src tgt) =
      some (transportReaction cfg name form src tgt ft st.include_genes) ∧
    (transportReaction cfg name form src tgt ft st.include_genes).reaction_type =
      TRANSLOCATION ∧
    (transportReaction cfg name form src tgt ft st.include_genes).substrates =
      [mkSpecies name form (some src)] ∧
    (transportReaction cfg name form src tgt ft st.include_genes).products =
      [mkSpecies name form (some tgt)] := by
  have h1 : apply_model_fixes cfg st [Fix.transport name form src tgt ft] =
      ({ st with
          reactions := st.reactions ++ [(transportReactionId cfg name form src tgt,
            transportReaction cfg name form src tgt ft st.include_genes)]
          additional_reactions := st.additional_reactions ++
            [transportReactionId cfg name form src tgt] }, 1) := by
    simp only [apply_model_fixes, List.foldl, applyOneFix, hfresh]
  have hlk : lookupReaction
      (apply_model_fixes cfg st [Fix.transport name form src tgt ft]).1.reactions
      (transportReactionId cfg name form src tgt) =
      some (transportReaction cfg name form src tgt ft st.include_genes) := by
    rw [h1]
    exact lookupReaction_append_self _ _ _ hfresh
  refine ⟨h1, ?_, ?_, hlk, rfl, rfl, rfl⟩
  · set st1 := (apply_model_fixes cfg st [Fix.transport name form src tgt ft]).1 with hst1
    simp [apply_model_fixes, applyOneFix, hlk]
  · rw [h1]
    simp

/-- An empty concrete adapter for the C5 witness. -/
def st0 : PSSAdapter := ⟨[], [], false⟩

/-- Witness for C5 at a concrete fix on the empty adapter. -/
theorem apply_transport_fix_idempotent_witness :
    apply_model_fixes cfg0 st0
        [Fix.transport "X" "protein" "nucleus" "cytoplasm" LOC_TRANSPORT_TO_CONSUMED] =
      ({ st0 with
          reactions := [(transportReactionId cfg0 "X" "protein" "nucleus" "cytoplasm",
            transportReaction cfg0 "X" "protein" "nucleus" "cytoplasm"
              LOC_TRANSPORT_TO_CONSUMED false)]
          additional_reactions :=
            [transportReactionId cfg0 "X" "protein" "nucleus" "cytoplasm"] }, 1) ∧
    (apply_model_fixes cfg0
        (apply_model_fixes cfg0 st0
          [Fix.transport "X" "protein" "nucleus" "cytoplasm"
            LOC_TRANSPORT_TO_CONSUMED]).1
        [Fix.transport "X" "protein" "nucleus" "cytoplasm"
          LOC_TRANSPORT_TO_CONSUMED]).2 = 0 := by
  have h := apply_transport_fix_idempotent cfg0 st0 "X" "protein" "nucleus" "cytoplasm"
    LOC_TRANSPORT_TO_CONSUMED (by decide)
  refine ⟨?_, ?_⟩
  · rw [h.1]
    rfl
  · rw [h.2.1]

/-! ### The repair orchestrator (model_fixes.py lines 151-283) -/

/-- `ModelFixer._identify_model_fixes` (lines 232-283), non-interactive
path: build the graph with the axis's identity setting, detect
problematic nodes, suggest fixes per node with the axis's advisor, and
apply them when `apply_fixes` is set, returning the applied count.
The interactive branch (lines 267-274) blocks on console input and is
not modelled; the claim concerns the automatic loop. -/
def identifyStep (cfg : Config) (applyFixes : Bool) (partLocation : Bool)
    (st : PSSAdapter) : PSSAdapter × Nat :=
  (find_problematic_nodes (createDigraph cfg st partLocation)).foldl (fun acc item =>
    (if (if partLocation then suggest_fixes_location item.1 item.2.2 item.2.1
        else suggest_fixes_form item.1 item.2.2 item.2.1) ≠ [] ∧ applyFixes = true then
      ((apply_model_fixes cfg acc.1 (if partLocation then
          suggest_fixes_location item.1 item.2.2 item.2.1
        else suggest_fixes_form item.1 item.2.2 item.2.1)).1,
       acc.2 + (apply_model_fixes cfg acc.1 (if partLocation then
          suggest_fixes_location item.1 item.2.2 item.2.1
        else suggest_fixes_form item.1 item.2.2 item.2.1)).2)
    else acc)) (st, 0)

/-- The two repair axes. -/
inductive Axis where
  | form
  | location
deriving DecidableEq

/-- The `for iteration in range(max_iterations)` loop of
`identify_model_fixes` for one axis (lines 176-189 and 204-217): run the
axis step, record the applied count, and stop after an iteration that
applied zero fixes.  The returned list is the per-iteration trace. -/
def runAxisLoop (step : PSSAdapter → PSSAdapter × Nat) :
    Nat → PSSAdapter → PSSAdapter × List Nat
  | 0, st => (st, [])
  | n + 1, st =>
    if (step st).2 = 0 then ((step st).1, [(step st).2])
    else ((runAxisLoop step n (step st).1).1,
      (step st).2 :: (runAxisLoop step n (step st).1).2)

/-- `ModelFixer.identify_model_fixes` (lines 151-230): the form axis runs
to convergence or the cap, then the location axis runs on the resulting
state; the returned trace tags each executed iteration with its axis, in
execution order. -/
def identify_model_fixes (cfg : Config) (applyFixes : Bool) (maxIterations : Nat)
    (st : PSSAdapter) : PSSAdapter × List (Axis × Nat) :=
  let rf := runAxisLoop (identifyStep cfg applyFixes false) maxIterations st
  let rl := runAxisLoop (identifyStep cfg applyFixes true) maxIterations rf.1
  (rl.1, rf.2.map (fun c => (Axis.form, c)) ++ rl.2.map (fun c => (Axis.location, c)))

/-- An axis executes at most as many iterations as the cap. -/
theorem runAxisLoop_length_le (step : PSSAdapter → PSSAdapter × Nat) (n : Nat) :
    ∀ st, (runAxisLoop step n st).2.length ≤ n := by
  induction n with
  | zero => intro st; simp [runAxisLoop]
  | succ m ih =>
    intro st
    rw [runAxisLoop]
    split_ifs with h
    · simp
    · simp only [List.length_cons]
      have := ih (step st).1
      omega

/-- An axis stops at the first zero-fix iteration: every recorded count
before the last is nonzero. -/
theorem runAxisLoop_stop_on_zero (step : PSSAdapter → PSSAdapter × Nat) (n : Nat) :
    ∀ st, (runAxisLoop step n st).2.dropLast.all (fun c => c != 0) = true := by
  induction n with
  | zero => intro st; simp [runAxisLoop]
  | succ m ih =>
    intro st
    rw [runAxisLoop]
    split_ifs with h
    · simp
    · rcases hr : (runAxisLoop step m (step st).1).2 with _ | ⟨a, l⟩
      · simp [hr]
      · have hd : ((step st).2 :: a :: l).dropLast = (step st).2 :: (a :: l).dropLast := rfl
        have htail := ih (step st).1
        rw [hr] at htail
        simp only [hr, hd, List.all_cons, Bool.and_eq_true]
        exact ⟨by simpa using h, htail⟩

/-- C6: with the default cap of 5, each axis executes at most 5
iterations, an axis stops as soon as an iteration applies zero fixes
(only the last recorded count of an axis can be zero), every form-axis
iteration precedes every location-axis iteration in the trace, and the
location axis starts from the form axis's final state. -/
theorem identify_model_fixes_loop (cfg : Config) (applyFixes : Bool) (st : PSSAdapter) :
    ∃ fc lc : List Nat,
      (identify_model_fixes cfg applyFixes 5 st).2 =
        fc.map (fun c => (Axis.form, c)) ++ lc.map (fun c => (Axis.location, c)) ∧
      fc.length ≤ 5 ∧ lc.length ≤ 5 ∧
      fc.dropLast.all (fun c => c != 0) = true ∧
      lc.dropLast.all (fun c => c != 0) = true ∧
      (identify_model_fixes cfg applyFixes 5 st).1 =
        (runAxisLoop (identifyStep cfg applyFixes true) 5
          (runAxisLoop (identifyStep cfg applyFixes false) 5 st).1).1 := by
  refine ⟨(runAxisLoop (identifyStep cfg applyFixes false) 5 st).2,
    (runAxisLoop (identifyStep cfg applyFixes true) 5
      (runAxisLoop (identifyStep cfg applyFixes false) 5 st).1).2, ?_,
    runAxisLoop_length_le _ 5 st, runAxisLoop_length_le _ 5 _,
    runAxisLoop_stop_on_zero _ 5 st, runAxisLoop_stop_on_zero _ 5 _, ?_⟩
  · simp only [identify_model_fixes]
  · simp only [identify_model_fixes]
